import Mathlib

/-!
Verification development for `animation-review/scripts/analyze.py`.

The script resolves an analysis mode (fps, model, system prompt, schema,
output format) from CLI arguments, builds a temporal-precision preamble,
dispatches a video-analysis request to one of two providers (Gemini or
Kimi), and post-processes the Kimi response by best-effort JSON extraction.

Modelling conventions:
* Python `int` values become `Int`; Python `round` (banker's rounding of a
  float) is modelled as exact half-even rounding over `ℚ` — exact for the
  small magnitudes reachable here, where the double for `1000 / fps` is far
  closer to the true rational than the rational is to a rounding boundary
  (the only exact-half case with `1 ≤ fps ≤ 24` is `fps = 16`, and `62.5`
  is an exact double).
* `json.loads` is modelled as a strict JSON-grammar recogniser (objects,
  arrays, strings with escapes, numbers as exact rationals, literals).
  CPython extensions not exercised by this repository (NaN/Infinity
  constants, surrogate-pair combination in `\u` escapes) are out of model.
* Text rendering of prompts is modelled by a record of the exact values the
  source passes to `str.format`; the fixed template texts around them are
  constants with no computational content.
* Environment-only checks (API key present, video file exists, container
  extension supported) and the network call itself are collaborators
  outside the embedding; the embedding stops at the fully-constructed
  provider request.
-/

/-- JSON values as produced by `json.loads`.  Numbers are kept as exact
rationals (CPython parses to `int`/`float`; the distinction is unobservable
in this script beyond truthiness, which agrees on exact values). -/
inductive Json where
  | null : Json
  | bool (b : Bool) : Json
  | num (q : ℚ) : Json
  | str (s : String) : Json
  | arr (elems : List Json) : Json
  | obj (members : List (String × Json)) : Json

-- ---------------------------------------------------------------------------
-- Static configuration (analyze.py top-level constants)
-- ---------------------------------------------------------------------------

/-- `MAX_FPS = 24` -/
def MAX_FPS : Int := 24

/-- The four analysis modes. -/
inductive ModeName where
  | check : ModeName
  | review : ModeName
  | diagnose : ModeName
  | inspire : ModeName
deriving DecidableEq

/-- Per-mode static configuration: default fps and default model. -/
structure ModeCfg where
  fps : Int
  model : String

/-- `MODES` table. -/
def MODES : ModeName → ModeCfg
  | .check    => ⟨5,  "gemini-2.5-flash"⟩
  | .review   => ⟨12, "gemini-2.5-flash"⟩
  | .diagnose => ⟨24, "gemini-2.5-pro"⟩
  | .inspire  => ⟨24, "gemini-2.5-pro"⟩

/-- The two providers. -/
inductive Provider where
  | gemini : Provider
  | kimi : Provider
deriving DecidableEq

/-- One row of `KIMI_MODEL_MAP`. -/
structure KimiCfg where
  model : String
  thinking : Bool
deriving DecidableEq

/-- `KIMI_MODEL_MAP`: Gemini model tiers to Kimi model + thinking flag. -/
def KIMI_MODEL_MAP : String → Option KimiCfg := fun m =>
  if m = "gemini-2.5-flash" then some ⟨"kimi-k2.5", false⟩
  else if m = "gemini-2.5-pro" then some ⟨"kimi-k2.5", true⟩
  else none

/-- `RAW_DEFAULT_MODES = {"diagnose", "inspire"}` -/
def RAW_DEFAULT_MODES : List ModeName := [.diagnose, .inspire]

-- ---------------------------------------------------------------------------
-- Output schemas (static dicts, transcribed as Json values)
-- ---------------------------------------------------------------------------

/-- Helper for `\x7b"type": "string"\x7d` schema leaves. -/
def jsTyp (t : String) : Json := .obj [("type", .str t)]

/-- Helper for a string-enum schema leaf. -/
def jsEnum (vals : List String) : Json :=
  .obj [("type", .str "string"), ("enum", .arr (vals.map .str))]

/-- Helper for an array-of-strings schema leaf. -/
def jsStrArr : Json := .obj [("type", .str "array"), ("items", jsTyp "string")]

/-- `REVIEW_SCHEMA` (used by the check and review modes). -/
def REVIEW_SCHEMA : Json := .obj
  [ ("type", .str "object")
  , ("properties", .obj
      [ ("summary", jsTyp "string")
      , ("animations", .obj
          [ ("type", .str "array")
          , ("items", .obj
              [ ("type", .str "object")
              , ("properties", .obj
                  [ ("element", jsTyp "string")
                  , ("type", jsEnum ["slide", "fade", "scale", "rotate",
                                     "color", "morph", "scroll", "other"])
                  , ("timestamp", jsTyp "string")
                  , ("duration_ms", jsTyp "integer")
                  , ("easing", jsTyp "string")
                  , ("quality", jsEnum ["smooth", "acceptable", "janky", "broken"])
                  ])
              , ("required", .arr (["element", "type", "timestamp",
                                    "duration_ms", "easing", "quality"].map .str))
              ])
          ])
      , ("issues", .obj
          [ ("type", .str "array")
          , ("items", .obj
              [ ("type", .str "object")
              , ("properties", .obj
                  [ ("timestamp", jsTyp "string")
                  , ("severity", jsEnum ["low", "medium", "high"])
                  , ("description", jsTyp "string")
                  , ("suggestion", jsTyp "string")
                  ])
              , ("required", .arr (["timestamp", "severity",
                                    "description", "suggestion"].map .str))
              ])
          ])
      , ("score", jsTyp "integer")
      , ("recommendations", jsStrArr)
      ])
  , ("required", .arr (["summary", "animations", "issues", "score",
                        "recommendations"].map .str))
  ]

/-- `INSPIRE_SCHEMA`. -/
def INSPIRE_SCHEMA : Json := .obj
  [ ("type", .str "object")
  , ("properties", .obj
      [ ("summary", jsTyp "string")
      , ("effects", .obj
          [ ("type", .str "array")
          , ("items", .obj
              [ ("type", .str "object")
              , ("properties", .obj
                  [ ("element", jsTyp "string")
                  , ("trigger", jsTyp "string")
                  , ("properties", jsStrArr)
                  , ("from_state", jsTyp "string")
                  , ("to_state", jsTyp "string")
                  , ("duration_ms", jsTyp "integer")
                  , ("delay_ms", jsTyp "integer")
                  , ("easing", jsTyp "string")
                  , ("timestamp", jsTyp "string")
                  ])
              , ("required", .arr (["element", "trigger", "properties",
                                    "from_state", "to_state", "duration_ms",
                                    "easing", "timestamp"].map .str))
              ])
          ])
      , ("choreography", jsTyp "string")
      , ("notable_details", jsStrArr)
      ])
  , ("required", .arr (["summary", "effects", "choreography",
                        "notable_details"].map .str))
  ]

/-- `DIAGNOSE_SCHEMA`. -/
def DIAGNOSE_SCHEMA : Json := .obj
  [ ("type", .str "object")
  , ("properties", .obj
      [ ("summary", jsTyp "string")
      , ("observations", .obj
          [ ("type", .str "array")
          , ("items", .obj
              [ ("type", .str "object")
              , ("properties", .obj
                  [ ("timestamp", jsTyp "string")
                  , ("description", jsTyp "string")
                  , ("expected", jsTyp "string")
                  , ("actual", jsTyp "string")
                  ])
              , ("required", .arr (["timestamp", "description", "expected",
                                    "actual"].map .str))
              ])
          ])
      , ("hypotheses", .obj
          [ ("type", .str "array")
          , ("items", .obj
              [ ("type", .str "object")
              , ("properties", .obj
                  [ ("cause", jsTyp "string")
                  , ("evidence", jsTyp "string")
                  , ("debugging_steps", jsStrArr)
                  ])
              , ("required", .arr (["cause", "evidence",
                                    "debugging_steps"].map .str))
              ])
          ])
      ])
  , ("required", .arr (["summary", "observations", "hypotheses"].map .str))
  ]

/-- `MODE_SCHEMAS` table. -/
def MODE_SCHEMAS : ModeName → Json
  | .check    => REVIEW_SCHEMA
  | .review   => REVIEW_SCHEMA
  | .diagnose => DIAGNOSE_SCHEMA
  | .inspire  => INSPIRE_SCHEMA

-- ---------------------------------------------------------------------------
-- json.loads model (strict JSON grammar over character lists)
-- ---------------------------------------------------------------------------

/-- Whitespace skipped between tokens by the CPython JSON decoder:
space, tab, newline, carriage return. -/
def jsonWs (c : Char) : Bool := c = ' ' || c = '\t' || c = '\n' || c = '\r'

/-- Drop leading JSON whitespace. -/
def skipJsonWs (l : List Char) : List Char := l.dropWhile jsonWs

/-- Value of a hexadecimal digit. -/
def hexVal (c : Char) : Option Nat :=
  if '0' ≤ c && c ≤ '9' then some (c.toNat - 48)
  else if 'a' ≤ c && c ≤ 'f' then some (c.toNat - 87)
  else if 'A' ≤ c && c ≤ 'F' then some (c.toNat - 55)
  else none

/-- Body of a JSON string after the opening quote: characters and escapes up
to the closing quote.  Unescaped control characters are rejected (strict
mode); `\u` escapes become the code point directly (surrogate-pair
combination is out of model — unexercised here). -/
def parseStringBody : List Char → List Char → Option (String × List Char)
  | [], _ => none
  | '"' :: rest, acc => some (String.mk acc.reverse, rest)
  | '\\' :: esc, acc =>
    (match esc, acc with
     | '"' :: rest, acc => parseStringBody rest ('"' :: acc)
     | '\\' :: rest, acc => parseStringBody rest ('\\' :: acc)
     | '/' :: rest, acc => parseStringBody rest ('/' :: acc)
     | 'b' :: rest, acc => parseStringBody rest ('\x08' :: acc)
     | 'f' :: rest, acc => parseStringBody rest ('\x0c' :: acc)
     | 'n' :: rest, acc => parseStringBody rest ('\n' :: acc)
     | 'r' :: rest, acc => parseStringBody rest ('\r' :: acc)
     | 't' :: rest, acc => parseStringBody rest ('\t' :: acc)
     | 'u' :: h1 :: h2 :: h3 :: h4 :: rest, acc =>
       (match hexVal h1, hexVal h2, hexVal h3, hexVal h4 with
        | some a, some b, some c, some d =>
          parseStringBody rest (Char.ofNat (((a * 16 + b) * 16 + c) * 16 + d) :: acc)
        | _, _, _, _ => none)
     | _, _ => none)
  | c :: rest, acc => if c.toNat < 32 then none else parseStringBody rest (c :: acc)

/-- Numeric value of a digit run. -/
def digitsToNat (ds : List Char) : Nat := ds.foldl (fun a c => a * 10 + (c.toNat - 48)) 0

/-- Optional fraction and exponent after the integer part of a JSON number
(maximal munch, matching the decoder's NUMBER_RE; a bare `.` or a bare
exponent marker is left unconsumed, exactly as the regex leaves it). -/
def parseFracExp (intVal : Nat) (neg : Bool) (rest : List Char) : ℚ × List Char :=
  let fracSplit : List Char × List Char :=
    match rest with
    | '.' :: r =>
      let ds := r.takeWhile Char.isDigit
      if ds.isEmpty then ([], rest) else (ds, r.dropWhile Char.isDigit)
    | _ => ([], rest)
  let fracDs := fracSplit.1
  let r2 := fracSplit.2
  let expSplit : Int × List Char :=
    match r2 with
    | c :: r =>
      if c = 'e' || c = 'E' then
        match r with
        | '+' :: r4 =>
          let ds := r4.takeWhile Char.isDigit
          if ds.isEmpty then (0, r2) else ((digitsToNat ds : Int), r4.dropWhile Char.isDigit)
        | '-' :: r4 =>
          let ds := r4.takeWhile Char.isDigit
          if ds.isEmpty then (0, r2) else (-(digitsToNat ds : Int), r4.dropWhile Char.isDigit)
        | _ =>
          let ds := r.takeWhile Char.isDigit
          if ds.isEmpty then (0, r2) else ((digitsToNat ds : Int), r.dropWhile Char.isDigit)
      else (0, r2)
    | [] => (0, r2)
  let expVal := expSplit.1
  let r3 := expSplit.2
  let mag : ℚ :=
    ((intVal : ℚ) + (digitsToNat fracDs : ℚ) / (10 : ℚ) ^ fracDs.length) * (10 : ℚ) ^ expVal
  (if neg then -mag else mag, r3)

/-- A JSON number: optional minus, `0` or a nonzero-led digit run, optional
fraction, optional exponent.  Exact rational value. -/
def parseNumber (l : List Char) : Option (ℚ × List Char) :=
  let signSplit : Bool × List Char :=
    match l with
    | '-' :: r => (true, r)
    | _ => (false, l)
  let neg := signSplit.1
  let l1 := signSplit.2
  match l1 with
  | [] => none
  | c :: r =>
    if c = '0' then some (parseFracExp 0 neg r)
    else if c.isDigit then
      some (parseFracExp (digitsToNat (l1.takeWhile Char.isDigit)) neg (l1.dropWhile Char.isDigit))
    else none

/-- Python dict insertion: an existing key keeps its position and takes the
new value; a new key is appended. -/
def objInsert (kvs : List (String × Json)) (k : String) (v : Json) : List (String × Json) :=
  if kvs.any (fun p => p.1 == k) then
    kvs.map (fun p => if p.1 == k then (k, v) else p)
  else kvs ++ [(k, v)]

mutual

/-- One JSON value at the head of the input (whitespace already skipped).
Fuel bounds the recursion; callers pass `2 * length + 2`, ample because
every recursive step consumes at least one character. -/
def parseVal : Nat → List Char → Option (Json × List Char)
  | 0, _ => none
  | _ + 1, [] => none
  | fuel + 1, l@(c :: r) =>
    if c = '"' then
      match parseStringBody r [] with
      | some (s, rest) => some (.str s, rest)
      | none => none
    else if c = '[' then
      match skipJsonWs r with
      | ']' :: rest => some (.arr [], rest)
      | r1 => parseElems fuel r1 []
    else if c = '\x7b' then
      match skipJsonWs r with
      | '\x7d' :: rest => some (.obj [], rest)
      | r1 => parseMembers fuel r1 []
    else
      match l with
      | 'n' :: 'u' :: 'l' :: 'l' :: rest => some (.null, rest)
      | 't' :: 'r' :: 'u' :: 'e' :: rest => some (.bool true, rest)
      | 'f' :: 'a' :: 'l' :: 's' :: 'e' :: rest => some (.bool false, rest)
      | _ =>
        match parseNumber l with
        | some (q, rest) => some (.num q, rest)
        | none => none

/-- Comma-separated array elements up to the closing bracket. -/
def parseElems : Nat → List Char → List Json → Option (Json × List Char)
  | 0, _, _ => none
  | fuel + 1, l, acc =>
    match parseVal fuel l with
    | none => none
    | some (v, rest) =>
      match skipJsonWs rest with
      | ',' :: r2 => parseElems fuel (skipJsonWs r2) (acc ++ [v])
      | ']' :: r2 => some (.arr (acc ++ [v]), r2)
      | _ => none

/-- Comma-separated `"key": value` members up to the closing brace. -/
def parseMembers : Nat → List Char → List (String × Json) → Option (Json × List Char)
  | 0, _, _ => none
  | fuel + 1, l, acc =>
    match l with
    | '"' :: r =>
      (match parseStringBody r [] with
       | none => none
       | some (k, rest) =>
         match skipJsonWs rest with
         | ':' :: r2 =>
           (match parseVal fuel (skipJsonWs r2) with
            | none => none
            | some (v, r3) =>
              match skipJsonWs r3 with
              | ',' :: r4 => parseMembers fuel (skipJsonWs r4) (objInsert acc k v)
              | '\x7d' :: r4 => some (.obj (objInsert acc k v), r4)
              | _ => none)
         | _ => none)
    | _ => none

end

/-- `json.loads` on a character list: optional surrounding whitespace, one
JSON value, then end of input. -/
def json_loads_l (l : List Char) : Option Json :=
  match parseVal (2 * l.length + 2) (skipJsonWs l) with
  | some (v, rest) => if skipJsonWs rest = [] then some v else none
  | none => none

-- ---------------------------------------------------------------------------
-- extract_json_from_response
-- ---------------------------------------------------------------------------

/-- ASCII whitespace, for `str.strip` and the regex class `\s` (the
non-ASCII whitespace code points of the full Unicode classes are out of
model; nothing in this repository produces them). -/
def pyWs (c : Char) : Bool :=
  c = ' ' || c = '\t' || c = '\n' || c = '\r' || c = '\x0b' || c = '\x0c'

/-- `str.strip()`. -/
def pyStrip (l : List Char) : List Char :=
  ((l.dropWhile pyWs).reverse.dropWhile pyWs).reverse

/-- The backtick character. -/
def backtick : Char := '\x60'

/-- Does the list start with three backticks? -/
def isTripleTick : List Char → Bool
  | a :: b :: c :: _ => a = backtick && b = backtick && c = backtick
  | _ => false

/-!
The fence pattern searched with `re.search(..., re.DOTALL)` is

  three backticks, `(?:json)?`, `\s*`, `\n?`, lazy group `(.*?)`,
  `\n?`, `\s*`, three backticks.

Hand-compilation into the functions below, following PCRE backtracking
semantics exactly:
* Leftmost match: the scan tries each start position in order; a start
  position matches iff three backticks open there and the remainder can
  complete, otherwise the scan moves one character right.
* The prefix `(?:json)?\s*\n?` never needs backtracking: the characters it
  can consume (letters of `json`, whitespace) contain no backtick, so
  consuming greedily can never skip over a closing fence; and because `\n`
  is itself in `\s`, the greedy `\s*` leaves nothing for `\n?`.
* The lazy group stops at the first position from which the tail
  `\n?\s*` + three backticks can match; since `\n?\s*` accepts exactly the
  all-whitespace strings, that tail matches at a position iff dropping
  whitespace from it lands on three backticks.
-/

/-- The lazy group: consume characters one at a time, stopping at the first
position whose whitespace-run leads to a closing fence; `none` when no
closing fence follows. -/
def lazyScan : List Char → Option (List Char)
  | [] => none
  | l@(c :: rest) =>
    if isTripleTick (l.dropWhile pyWs) then some []
    else
      match lazyScan rest with
      | some g => some (c :: g)
      | none => none

/-- After an opening fence: optional `json`, greedy whitespace, then the
lazy group up to the closing fence. -/
def fenceBody (l : List Char) : Option (List Char) :=
  let l1 :=
    match l with
    | 'j' :: 's' :: 'o' :: 'n' :: rest => rest
    | _ => l
  lazyScan (l1.dropWhile pyWs)

/-- `re.search` for the fence pattern, returning group 1 of the leftmost
match. -/
def fenceSearch : List Char → Option (List Char)
  | [] => none
  | l@(_ :: rest) =>
    if isTripleTick l then
      match fenceBody (l.drop 3) with
      | some g => some g
      | none => fenceSearch rest
    else fenceSearch rest

/-- `str.find` for a single character (`-1` becomes `none`). -/
def pyFindCh (l : List Char) (c : Char) : Option Nat :=
  l.findIdx? (fun x => x == c)

/-- `str.rfind` for a single character. -/
def pyRFindCh (l : List Char) (c : Char) : Option Nat :=
  match l.reverse.findIdx? (fun x => x == c) with
  | some i => some (l.length - 1 - i)
  | none => none

/-- The slice `stripped[brace_start : brace_end + 1]` when
`brace_start != -1 and brace_end > brace_start`. -/
def braceSlice (l : List Char) : Option (List Char) :=
  match pyFindCh l '\x7b', pyRFindCh l '\x7d' with
  | some s, some e => if s < e then some ((l.drop s).take (e - s + 1)) else none
  | _, _ => none

/-- Strategy (c): parse the outermost brace-to-brace substring. -/
def braceStrategy (l : List Char) : Option Json × Bool :=
  match braceSlice l with
  | some sub =>
    (match json_loads_l sub with
     | some v => (some v, false)
     | none => (none, false))
  | none => (none, false)

/-- `extract_json_from_response`: (a) parse the stripped text directly,
(b) parse the interior of a markdown code fence, (c) parse the outermost
brace-to-brace substring; first success wins, and the second component
(`was_clean`) is true exactly on an (a) success. -/
def extract_json_from_response (text : String) : Option Json × Bool :=
  let stripped := pyStrip text.toList
  match json_loads_l stripped with
  | some v => (some v, true)
  | none =>
    match fenceSearch stripped with
    | some inner =>
      (match json_loads_l inner with
       | some v => (some v, false)
       | none => braceStrategy stripped)
    | none => braceStrategy stripped

-- ---------------------------------------------------------------------------
-- Kimi response post-processing (tail of call_kimi)
-- ---------------------------------------------------------------------------

/-- Python truthiness of a parsed JSON value (`if parsed:`). -/
def jsonTruthy : Json → Bool
  | .null => false
  | .bool b => b
  | .num q => decide (q ≠ 0)
  | .str s => decide (s ≠ "")
  | .arr xs => !xs.isEmpty
  | .obj kvs => !kvs.isEmpty

/-- The analysis text returned by `call_kimi`: either the re-rendered
parsed value (`json.dumps(parsed, indent=2)`, kept symbolic) or the raw
response text verbatim. -/
inductive KimiText where
  | rendered (v : Json) : KimiText
  | raw (s : String) : KimiText

/-- Outcome of the Kimi response handling: the output text, the effective
`use_raw` flag, and whether the could-not-extract degradation warning was
printed. -/
structure KimiOutcome where
  output : KimiText
  use_raw : Bool
  degraded : Bool

/-- Tail of `call_kimi` (lines 564-578): on a structured request, extract
JSON from the response; the extraction result is tested by Python
truthiness (`if parsed:`), so `None` and falsy values alike fall back to
the raw text with `use_raw` flipped and a warning printed.  Always returns
an outcome — this path never exits. -/
def kimi_postprocess (raw_text : String) (use_raw : Bool) : KimiOutcome :=
  if use_raw then ⟨.raw raw_text, true, false⟩
  else
    let pr := extract_json_from_response raw_text
    match pr.1 with
    | some v =>
      if jsonTruthy v then ⟨.rendered v, false, false⟩
      else ⟨.raw raw_text, true, true⟩
    | none => ⟨.raw raw_text, true, true⟩

-- ---------------------------------------------------------------------------
-- build_system_prompt
-- ---------------------------------------------------------------------------

/-- Python `round(num / den)` on integers: round half to even, computed on
the exact quotient.  The source divides floats; for every integer `fps`
reachable here the double for `1000 / fps` is far closer to the true
rational than that rational is to a rounding boundary, so the exact model
agrees with the float computation.  (Unused at `den = 0`; the caller
models that as the `ZeroDivisionError` it is.) -/
def pyRoundDiv (num den : Int) : Int :=
  let d : Int := den.natAbs
  let n : Int := if den < 0 then -num else num
  let f : Int := n.fdiv d
  let r : Int := n - f * d
  if 2 * r < d then f
  else if d < 2 * r then f + 1
  else if f % 2 = 0 then f else f + 1

/-- Trailing-zero strip for a 3-digit fraction. -/
def stripZeroTail (l : List Char) : List Char :=
  (l.reverse.dropWhile (fun c => c = '0')).reverse

/-- The preamble's second example timestamp:
`f-string of 1.0 + interval_ms / 1000 with 3 decimals`, then
`.rstrip("0").rstrip(".")`.  The value has an exact 3-decimal expansion
(`(1000 + interval_ms) / 1000`), so the float formatting introduces no
rounding for the magnitudes reachable here. -/
def fmtT2 (interval_ms : Int) : String :=
  let total : Int := 1000 + interval_ms
  let sign := if total < 0 then "-" else ""
  let t := total.natAbs
  let d1 := t % 1000 / 100
  let d2 := t % 100 / 10
  let d3 := t % 10
  let frac := stripZeroTail
    [Char.ofNat (48 + d1), Char.ofNat (48 + d2), Char.ofNat (48 + d3)]
  if frac.isEmpty then sign ++ toString (t / 1000)
  else sign ++ toString (t / 1000) ++ "." ++ String.mk frac

/-- The values substituted into the temporal-precision template (the exact
keyword arguments of the `.format` call; the fixed template text around
them carries no computation). -/
structure TemporalParams where
  fps : Int
  interval_ms : Int
  example_duration : Int
  example_t1 : String
  example_t2 : String

/-- A fully built system prompt: the preamble substitution values, which
template was used, the mode body appended, and the optionally injected
schema text. -/
structure Prompt where
  preamble : TemporalParams
  kimi_template : Bool
  body : ModeName
  schema_injected : Option Json

/-- `build_system_prompt`.  `interval_ms = round(1000 / fps)` raises
`ZeroDivisionError` when `fps = 0`, modelled as `none`; the schema is
injected into the prompt only for the kimi provider. -/
def build_system_prompt (mode_name : ModeName) (fps : Int) (provider : Provider)
    (schema : Option Json) : Option Prompt :=
  if fps = 0 then none
  else
    let interval_ms := pyRoundDiv 1000 fps
    some
      { preamble :=
          { fps := fps
          , interval_ms := interval_ms
          , example_duration := interval_ms * 3
          , example_t1 := "1.0"
          , example_t2 := fmtT2 interval_ms }
      , kimi_template := provider == Provider.kimi
      , body := mode_name
      , schema_injected := if provider == Provider.kimi then schema else none }

-- ---------------------------------------------------------------------------
-- CLI arguments and resolve_mode
-- ---------------------------------------------------------------------------

/-- The parsed CLI arguments that reach `resolve_mode` and the dispatch
(argparse restricts `mode` to the four mode names and `provider` to the two
providers; `raw` is `None`-or-`True`, truthiness-equivalent to a Bool). -/
structure Args where
  video : String := "/tmp/animation-review.mp4"
  mode : Option ModeName := none
  fps : Option Int := none
  clip_start : Option String := none
  clip_end : Option String := none
  prompt : String := ""
  model : Option String := none
  provider : Provider := .gemini
  raw : Bool := false
  json : Bool := false
  no_save : Bool := false

/-- The fps-resolution step of `resolve_mode` (lines 731-734): override if
present else mode default, then cap at `MAX_FPS` (with a warning, not
modelled, when capped). -/
def resolveFps (override : Option Int) (mode_default : Int) : Int :=
  let fps := override.getD mode_default
  if fps > MAX_FPS then MAX_FPS else fps

/-- The output-format step of `resolve_mode` (lines 739-745): explicit
`--json` wins, then explicit `--raw`, else the mode's default preference. -/
def resolveUseRaw (json_flag raw_flag : Bool) (mode_name : ModeName) : Bool :=
  if json_flag then false
  else if raw_flag then true
  else RAW_DEFAULT_MODES.contains mode_name

/-- The Resolved Request produced by `resolve_mode`. -/
structure Resolved where
  fps : Int
  model : String
  system_prompt : Prompt
  schema : Json
  use_raw : Bool
  mode_name : ModeName

/-- `resolve_mode`: mode defaulting (`args.mode or "review"`), fps
resolution and cap, model defaulting, schema selection, output-format
precedence, and prompt construction.  `none` models the uncaught
`ZeroDivisionError` that a zero fps raises inside `build_system_prompt`. -/
def resolve_mode (args : Args) : Option Resolved :=
  let mode_name := args.mode.getD ModeName.review
  let mode := MODES mode_name
  let fps := resolveFps args.fps mode.fps
  let model := args.model.getD mode.model
  let schema := MODE_SCHEMAS mode_name
  let use_raw := resolveUseRaw args.json args.raw mode_name
  let schema_for_prompt := if use_raw then none else some schema
  match build_system_prompt mode_name fps args.provider schema_for_prompt with
  | none => none
  | some sp => some ⟨fps, model, sp, schema, use_raw, mode_name⟩

-- ---------------------------------------------------------------------------
-- Provider request construction and main dispatch
-- ---------------------------------------------------------------------------

/-- The Gemini request as assembled by `call_gemini`: the fps goes into
`types.VideoMetadata(fps=fps)`; the structured config carries the schema
only when `use_raw` is false. -/
structure GeminiRequest where
  video_metadata_fps : Int
  start_offset : Option String
  end_offset : Option String
  model : String
  system_instruction : Prompt
  response_schema : Option Json
  user_prompt : String

/-- Request construction inside `call_gemini` (the API-key, file and
container-extension checks and the network call itself are environmental
collaborators outside the embedding). -/
def call_gemini_request (user_prompt : String) (system_prompt : Prompt) (model : String)
    (schema : Json) (fps : Int) (clip_start clip_end : Option String)
    (use_raw : Bool) : GeminiRequest :=
  { video_metadata_fps := fps
  , start_offset := clip_start
  , end_offset := clip_end
  , model := model
  , system_instruction := system_prompt
  , response_schema := if use_raw then none else some schema
  , user_prompt := user_prompt }

/-- The Kimi request as assembled by `call_kimi`: the fps becomes the
ffmpeg re-encode rate (`preprocess_video_for_kimi` adds `-r str(fps)`),
and the mapped model and thinking flag come from `KIMI_MODEL_MAP`. -/
structure KimiRequest where
  kimi_model : String
  thinking : Bool
  ffmpeg_fps : Int
  clip_start : Option String
  clip_end : Option String
  system_prompt : Prompt
  user_prompt : String
  max_tokens : Nat

/-- Request construction inside `call_kimi` (lines 511-550): an unmapped
model is a fatal reported error (`sys.exit(1)`) raised before the video is
pre-processed or any request object is built. -/
def call_kimi_request (user_prompt : String) (system_prompt : Prompt) (model : String)
    (fps : Int) (clip_start clip_end : Option String) : Except String KimiRequest :=
  match KIMI_MODEL_MAP model with
  | none => .error ("No Kimi mapping for model " ++ model)
  | some cfg =>
    .ok
      { kimi_model := cfg.model
      , thinking := cfg.thinking
      , ffmpeg_fps := fps
      , clip_start := clip_start
      , clip_end := clip_end
      , system_prompt := system_prompt
      , user_prompt := user_prompt
      , max_tokens := 16384 }

/-- A request to either provider. -/
inductive ProviderRequest where
  | gemini (r : GeminiRequest) : ProviderRequest
  | kimi (r : KimiRequest) : ProviderRequest

/-- The user prompt built in `main`. -/
def mainUserPrompt (ctx : String) : String :=
  let base := "Analyze the animations in this screen recording."
  if ctx = "" then base else base ++ "\n\nContext: " ++ ctx

/-- `main` up to the provider call: resolve the mode, then dispatch the
resolved values to the provider-specific request builder.  Errors are the
two fatal paths reachable from resolution and dispatch themselves (the
zero-fps crash and the unmapped Kimi model). -/
def mainDispatch (args : Args) : Except String ProviderRequest :=
  match resolve_mode args with
  | none => .error "ZeroDivisionError in build_system_prompt"
  | some r =>
    let user_prompt := mainUserPrompt args.prompt
    match args.provider with
    | .gemini =>
      .ok (.gemini (call_gemini_request user_prompt r.system_prompt r.model r.schema
            r.fps args.clip_start args.clip_end r.use_raw))
    | .kimi =>
      match call_kimi_request user_prompt r.system_prompt r.model r.fps
              args.clip_start args.clip_end with
      | .error e => .error e
      | .ok req => .ok (.kimi req)

/-- The sampling rate a request actually carries to its provider. -/
def requestFps : ProviderRequest → Int
  | .gemini r => r.video_metadata_fps
  | .kimi r => r.ffmpeg_fps

/-- The sampling rate declared in a request's rendered preamble. -/
def requestPreambleFps : ProviderRequest → Int
  | .gemini r => r.system_instruction.preamble.fps
  | .kimi r => r.system_prompt.preamble.fps

-- ---------------------------------------------------------------------------
-- Helper lemmas
-- ---------------------------------------------------------------------------

/-- A successfully built prompt declares exactly the fps it was given. -/
theorem build_system_prompt_fps (m : ModeName) (f : Int) (p : Provider)
    (s : Option Json) (pr : Prompt) (h : build_system_prompt m f p s = some pr) :
    pr.preamble.fps = f := by
  unfold build_system_prompt at h
  split at h
  · exact Option.noConfusion h
  · exact congrArg (fun x => x.preamble.fps) (Option.some.inj h).symm

/-- A successfully built prompt states the rounded millisecond window of its
fps and a worked duration of three windows. -/
theorem build_system_prompt_interval (m : ModeName) (f : Int) (p : Provider)
    (s : Option Json) (pr : Prompt) (h : build_system_prompt m f p s = some pr) :
    pr.preamble.interval_ms = pyRoundDiv 1000 f ∧
    pr.preamble.example_duration = pr.preamble.interval_ms * 3 := by
  unfold build_system_prompt at h
  split at h
  · exact Option.noConfusion h
  · have e := (Option.some.inj h).symm
    rw [e]
    exact ⟨rfl, rfl⟩

/-- Everything a successful `resolve_mode` returns, expressed through the
step functions it calls. -/
theorem resolve_mode_some (args : Args) (r : Resolved)
    (h : resolve_mode args = some r) :
    r.mode_name = args.mode.getD ModeName.review ∧
    r.fps = resolveFps args.fps (MODES (args.mode.getD ModeName.review)).fps ∧
    r.model = args.model.getD (MODES (args.mode.getD ModeName.review)).model ∧
    r.schema = MODE_SCHEMAS (args.mode.getD ModeName.review) ∧
    r.use_raw = resolveUseRaw args.json args.raw (args.mode.getD ModeName.review) ∧
    build_system_prompt (args.mode.getD ModeName.review)
      (resolveFps args.fps (MODES (args.mode.getD ModeName.review)).fps)
      args.provider
      (if resolveUseRaw args.json args.raw (args.mode.getD ModeName.review) then none
       else some (MODE_SCHEMAS (args.mode.getD ModeName.review))) =
      some r.system_prompt := by
  simp only [resolve_mode] at h
  split at h
  · exact Option.noConfusion h
  · next sp hsp =>
    have e := (Option.some.inj h).symm
    subst e
    exact ⟨rfl, rfl, rfl, rfl, rfl, hsp⟩

/-- Dummy prompt for `Option.getD` in concrete evaluations. -/
def dummyPrompt : Prompt := ⟨⟨0, 0, 0, "", ""⟩, false, .review, none⟩

/-- Dummy resolved request for `Option.getD` in concrete evaluations. -/
def dummyResolved : Resolved := ⟨0, "", dummyPrompt, .null, false, .review⟩

-- ---------------------------------------------------------------------------
-- Claims
-- ---------------------------------------------------------------------------

/-- C2: a sampling-rate override strictly above `MAX_FPS` resolves to
exactly `MAX_FPS`; an override at or below the ceiling is used unchanged;
with no override the mode's default is used; and the fps `resolve_mode`
returns is exactly this resolution of its arguments. -/
theorem c2_fps_override_clamped_at_ceiling :
    (∀ f d : Int, MAX_FPS < f → resolveFps (some f) d = MAX_FPS) ∧
    (∀ f d : Int, f ≤ MAX_FPS → resolveFps (some f) d = f) ∧
    (∀ m : ModeName, resolveFps none (MODES m).fps = (MODES m).fps) ∧
    (∀ (args : Args) (r : Resolved), resolve_mode args = some r →
      r.fps = resolveFps args.fps (MODES (args.mode.getD ModeName.review)).fps) := by
  refine ⟨?_, ?_, ?_, ?_⟩
  · intro f d hf
    unfold resolveFps
    simp only [Option.getD_some]
    exact if_pos hf
  · intro f d hf
    unfold resolveFps
    simp only [Option.getD_some]
    exact if_neg (not_lt.mpr hf)
  · intro m
    cases m <;> rfl
  · intro args r h
    exact (resolve_mode_some args r h).2.1

/-- C2 witness: an override of 100 is clamped to 24; an override of 10 is
kept; and the end-to-end default run resolves the review default. -/
theorem c2_fps_override_clamped_at_ceiling_witness :
    MAX_FPS < 100 ∧ resolveFps (some 100) 12 = MAX_FPS ∧
    (10 : Int) ≤ MAX_FPS ∧ resolveFps (some 10) 12 = 10 ∧
    resolve_mode { fps := some 100 } = some ((resolve_mode { fps := some 100 }).getD dummyResolved) ∧
    ((resolve_mode { fps := some 100 }).getD dummyResolved).fps =
      resolveFps (some 100) (MODES ModeName.review).fps :=
  ⟨by decide, c2_fps_override_clamped_at_ceiling.1 100 12 (by decide),
   by decide, c2_fps_override_clamped_at_ceiling.2.1 10 12 (by decide),
   rfl,
   c2_fps_override_clamped_at_ceiling.2.2.2 { fps := some 100 }
     ((resolve_mode { fps := some 100 }).getD dummyResolved) rfl⟩

/-- C3: output format precedence — the explicit structured flag beats the
explicit raw flag beats the mode default; with no flags exactly diagnose
and inspire are free-text; and the flag `resolve_mode` returns is exactly
this resolution. -/
theorem c3_output_format_precedence :
    (∀ (m : ModeName) (r : Bool), resolveUseRaw true r m = false) ∧
    (∀ m : ModeName, resolveUseRaw false true m = true) ∧
    (∀ m : ModeName, resolveUseRaw false false m =
      (m = ModeName.diagnose || m = ModeName.inspire)) ∧
    (∀ (args : Args) (r : Resolved), resolve_mode args = some r →
      r.use_raw = resolveUseRaw args.json args.raw (args.mode.getD ModeName.review)) := by
  refine ⟨?_, ?_, ?_, ?_⟩
  · intro m r; rfl
  · intro m; rfl
  · intro m; cases m <;> rfl
  · intro args r h
    exact (resolve_mode_some args r h).2.2.2.2.1

/-- C3 witness: `--json` on the free-text-default diagnose mode yields
structured output end to end. -/
theorem c3_output_format_precedence_witness :
    resolveUseRaw true false ModeName.diagnose = false ∧
    resolve_mode { mode := some ModeName.diagnose, json := true } =
      some ((resolve_mode { mode := some ModeName.diagnose, json := true }).getD dummyResolved) ∧
    ((resolve_mode { mode := some ModeName.diagnose, json := true }).getD dummyResolved).use_raw =
      resolveUseRaw true false ModeName.diagnose :=
  ⟨c3_output_format_precedence.1 ModeName.diagnose false,
   rfl,
   c3_output_format_precedence.2.2.2 { mode := some ModeName.diagnose, json := true }
     ((resolve_mode { mode := some ModeName.diagnose, json := true }).getD dummyResolved) rfl⟩

/-- C7: a model without a `KIMI_MODEL_MAP` entry makes `call_kimi` fail
with a reported error before any request is built, never substituting a
default; a mapped model is translated to the provider's own model
identifier and thinking flag (and the two table rows are as stated). -/
theorem c7_unmapped_kimi_model_fatal :
    (∀ (m up : String) (sp : Prompt) (fps : Int) (cs ce : Option String),
      KIMI_MODEL_MAP m = none →
      call_kimi_request up sp m fps cs ce =
        .error ("No Kimi mapping for model " ++ m)) ∧
    (∀ (m : String) (cfg : KimiCfg) (up : String) (sp : Prompt) (fps : Int)
        (cs ce : Option String),
      KIMI_MODEL_MAP m = some cfg →
      ∃ req, call_kimi_request up sp m fps cs ce = .ok req ∧
        req.kimi_model = cfg.model ∧ req.thinking = cfg.thinking) ∧
    KIMI_MODEL_MAP "gemini-2.5-flash" = some ⟨"kimi-k2.5", false⟩ ∧
    KIMI_MODEL_MAP "gemini-2.5-pro" = some ⟨"kimi-k2.5", true⟩ := by
  refine ⟨?_, ?_, by decide, by decide⟩
  · intro m up sp fps cs ce hm
    unfold call_kimi_request
    rw [hm]
  · intro m cfg up sp fps cs ce hm
    refine ⟨⟨cfg.model, cfg.thinking, fps, cs, ce, sp, up, 16384⟩, ?_, rfl, rfl⟩
    unfold call_kimi_request
    rw [hm]

/-- C7 witness: the model string `gpt-4o` is unmapped and fatal; the
pro-tier model maps to `kimi-k2.5` with thinking enabled. -/
theorem c7_unmapped_kimi_model_fatal_witness :
    KIMI_MODEL_MAP "gpt-4o" = none ∧
    call_kimi_request "" dummyPrompt "gpt-4o" 12 none none =
      .error ("No Kimi mapping for model " ++ "gpt-4o") ∧
    KIMI_MODEL_MAP "gemini-2.5-pro" = some ⟨"kimi-k2.5", true⟩ ∧
    (∃ req, call_kimi_request "" dummyPrompt "gemini-2.5-pro" 24 none none = .ok req ∧
      req.kimi_model = "kimi-k2.5" ∧ req.thinking = true) :=
  ⟨by decide,
   c7_unmapped_kimi_model_fatal.1 "gpt-4o" "" dummyPrompt 12 none none (by decide),
   by decide,
   c7_unmapped_kimi_model_fatal.2.1 "gemini-2.5-pro" ⟨"kimi-k2.5", true⟩ "" dummyPrompt
     24 none none (by decide)⟩

/-- The failing input for C8: a negative sampling-rate override. -/
def c8Args : Args := { fps := some (-5) }

/-- The Resolved Request the code produces for that input. -/
def c8Resolved : Resolved := (resolve_mode c8Args).getD dummyResolved

/-- The provider request the code dispatches for that input. -/
def c8Req : ProviderRequest :=
  (mainDispatch c8Args).toOption.getD (.gemini ⟨0, none, none, "", dummyPrompt, none, ""⟩)

/-- C8 (code evaluation at the failing input): the claim says a requested
sampling rate ≤ 0 is fatally rejected with no Resolved Request and no
rendered preamble, but `resolve_mode` has no such check — an override of
`-5` resolves successfully, renders a preamble declaring -5 fps and a
-200 ms window, and the run dispatches a provider request carrying -5. -/
theorem c8_negative_fps_resolves_and_dispatches :
    resolve_mode c8Args = some c8Resolved ∧
    c8Resolved.fps = -5 ∧
    c8Resolved.system_prompt.preamble.fps = -5 ∧
    c8Resolved.system_prompt.preamble.interval_ms = -200 ∧
    mainDispatch c8Args = .ok c8Req ∧ requestFps c8Req = -5 :=
  ⟨rfl, rfl, rfl, rfl, rfl, rfl⟩

/-- C10: with no mode given, resolution silently defaults to the review
mode: fps 12, the flash-tier default model, the review schema, and
structured output. -/
theorem c10_default_mode_is_review :
    resolve_mode ({} : Args) = some ((resolve_mode ({} : Args)).getD dummyResolved) ∧
    ((resolve_mode ({} : Args)).getD dummyResolved).mode_name = ModeName.review ∧
    ((resolve_mode ({} : Args)).getD dummyResolved).fps = 12 ∧
    ((resolve_mode ({} : Args)).getD dummyResolved).model = "gemini-2.5-flash" ∧
    ((resolve_mode ({} : Args)).getD dummyResolved).schema = REVIEW_SCHEMA ∧
    ((resolve_mode ({} : Args)).getD dummyResolved).use_raw = false :=
  ⟨rfl, rfl, rfl, rfl, rfl, rfl⟩

/-- C1: for every CLI input that produces a provider request, the sampling
rate declared in the rendered preamble equals the sampling rate the request
actually carries to the provider (the Gemini video-metadata fps, or the
ffmpeg re-encode rate for Kimi). -/
theorem c1_preamble_fps_matches_provider_fps (args : Args) (req : ProviderRequest)
    (h : mainDispatch args = .ok req) :
    requestPreambleFps req = requestFps req := by
  have hfps : ∀ r : Resolved, resolve_mode args = some r →
      r.system_prompt.preamble.fps = r.fps := by
    intro r hr
    have hs := (resolve_mode_some args r hr).2.2.2.2.2
    have hb := build_system_prompt_fps _ _ _ _ _ hs
    rw [hb, (resolve_mode_some args r hr).2.1]
  cases hr : resolve_mode args with
  | none =>
    simp only [mainDispatch, hr] at h
    exact Except.noConfusion h
  | some r =>
    cases hp : args.provider with
    | gemini =>
      simp only [mainDispatch, hr, hp] at h
      cases h
      exact hfps r hr
    | kimi =>
      cases hm : KIMI_MODEL_MAP r.model with
      | none =>
        simp only [mainDispatch, hr, hp, call_kimi_request, hm] at h
        exact Except.noConfusion h
      | some cfg =>
        simp only [mainDispatch, hr, hp, call_kimi_request, hm] at h
        cases h
        exact hfps r hr

/-- Arguments for the C1 witness: the Kimi path with defaults. -/
def c1Args : Args := { mode := some ModeName.check, provider := Provider.kimi }

/-- The provider request built for the C1 witness arguments. -/
def c1Req : ProviderRequest :=
  (mainDispatch c1Args).toOption.getD (.gemini ⟨0, none, none, "", dummyPrompt, none, ""⟩)

/-- C1 witness: the check-mode Kimi run builds a request whose preamble and
ffmpeg rate agree. -/
theorem c1_preamble_fps_matches_provider_fps_witness :
    mainDispatch c1Args = .ok c1Req ∧ requestPreambleFps c1Req = requestFps c1Req :=
  ⟨rfl, c1_preamble_fps_matches_provider_fps c1Args c1Req rfl⟩

/-- C4: for every resolution with a positive resolved sampling rate, the
millisecond window stated in the rendered preamble is exactly the rounded
quotient `round(1000 / fps)`, and the worked duration example is three such
windows. -/
theorem c4_preamble_window_is_rounded_quotient (args : Args) (r : Resolved)
    (h : resolve_mode args = some r) (_hpos : 0 < r.fps) :
    r.system_prompt.preamble.interval_ms = pyRoundDiv 1000 r.fps ∧
    r.system_prompt.preamble.example_duration =
      r.system_prompt.preamble.interval_ms * 3 := by
  have hs := (resolve_mode_some args r h).2.2.2.2.2
  have hi := build_system_prompt_interval _ _ _ _ _ hs
  refine ⟨?_, hi.2⟩
  rw [hi.1, ← (resolve_mode_some args r h).2.1]

/-- The resolved request of the unqualified default run. -/
def c4Resolved : Resolved := (resolve_mode ({} : Args)).getD dummyResolved

/-- C4 witness: the default review run has a positive rate (12) and its
preamble states an 83 ms window and a 249 ms worked duration. -/
theorem c4_preamble_window_is_rounded_quotient_witness :
    resolve_mode ({} : Args) = some c4Resolved ∧ 0 < c4Resolved.fps ∧
    (c4Resolved.system_prompt.preamble.interval_ms = pyRoundDiv 1000 c4Resolved.fps ∧
     c4Resolved.system_prompt.preamble.example_duration =
       c4Resolved.system_prompt.preamble.interval_ms * 3) :=
  ⟨rfl, by decide,
   c4_preamble_window_is_rounded_quotient ({} : Args) c4Resolved rfl (by decide)⟩

-- ---------------------------------------------------------------------------
-- Extraction-claim helpers
-- ---------------------------------------------------------------------------

/-- The brace strategy never reports a clean parse. -/
theorem braceStrategy_not_clean (l : List Char) : (braceStrategy l).2 = false := by
  cases hs : braceSlice l with
  | none => simp [braceStrategy, hs]
  | some sub =>
    cases hj : json_loads_l sub with
    | none => simp [braceStrategy, hs, hj]
    | some v => simp [braceStrategy, hs, hj]

/-- A direct parse of the stripped text wins and is reported clean. -/
theorem extract_clean_of_direct (t : String) (v : Json)
    (h : json_loads_l (pyStrip t.toList) = some v) :
    extract_json_from_response t = (some v, true) := by
  simp only [extract_json_from_response]
  rw [h]

/-- When the direct parse fails, no path reports a clean parse. -/
theorem extract_not_clean (t : String)
    (hA : json_loads_l (pyStrip t.toList) = none) :
    (extract_json_from_response t).2 = false := by
  cases hf : fenceSearch (pyStrip t.toList) with
  | none =>
    simp only [extract_json_from_response, hA, hf]
    exact braceStrategy_not_clean _
  | some i =>
    cases hi : json_loads_l i with
    | none =>
      simp only [extract_json_from_response, hA, hf, hi]
      exact braceStrategy_not_clean _
    | some v =>
      simp only [extract_json_from_response, hA, hf, hi]

/-- The worked fenced response of C5. -/
def c5Input : String := "```json\n\x7b\"summary\":\"ok\"\x7d\n```"

/-- The fenced interior of the worked response. -/
def c5Interior : String := "\x7b\"summary\":\"ok\"\x7d"

/-- C5: the three recovery strategies are tried in order — whole stripped
text, fenced interior, outermost brace pair — the first successful parse
wins, the clean flag is true exactly when the direct parse succeeded, and
the worked fenced example recovers its object non-clean via the
fenced-block strategy. -/
theorem c5_extraction_strategy_order :
    (∀ (t : String) (v : Json), json_loads_l (pyStrip t.toList) = some v →
      extract_json_from_response t = (some v, true)) ∧
    (∀ t : String, (extract_json_from_response t).2 = true ↔
      ∃ v, json_loads_l (pyStrip t.toList) = some v) ∧
    (∀ (t : String) (i : List Char) (v : Json),
      json_loads_l (pyStrip t.toList) = none →
      fenceSearch (pyStrip t.toList) = some i →
      json_loads_l i = some v →
      extract_json_from_response t = (some v, false)) ∧
    (∀ t : String, json_loads_l (pyStrip t.toList) = none →
      (∀ i, fenceSearch (pyStrip t.toList) = some i → json_loads_l i = none) →
      extract_json_from_response t = braceStrategy (pyStrip t.toList)) ∧
    (∀ (l sub : List Char) (v : Json), braceSlice l = some sub →
      json_loads_l sub = some v → braceStrategy l = (some v, false)) ∧
    (json_loads_l (pyStrip c5Input.toList) = none ∧
     fenceSearch (pyStrip c5Input.toList) = some c5Interior.toList ∧
     json_loads_l c5Interior.toList = some (Json.obj [("summary", Json.str "ok")]) ∧
     extract_json_from_response c5Input =
       (some (Json.obj [("summary", Json.str "ok")]), false)) := by
  refine ⟨extract_clean_of_direct, ?_, ?_, ?_, ?_, rfl, rfl, rfl, rfl⟩
  · intro t
    constructor
    · intro h
      cases hA : json_loads_l (pyStrip t.toList) with
      | none =>
        rw [extract_not_clean t hA] at h
        exact Bool.noConfusion h
      | some v => exact ⟨v, rfl⟩
    · rintro ⟨v, hv⟩
      rw [extract_clean_of_direct t v hv]
  · intro t i v hA hF hI
    simp only [extract_json_from_response, hA, hF, hI]
  · intro t hA hF
    cases hf : fenceSearch (pyStrip t.toList) with
    | none => simp only [extract_json_from_response, hA, hf]
    | some i => simp only [extract_json_from_response, hA, hf, hF i hf]
  · intro l sub v hS hV
    simp only [braceStrategy, hS, hV]

/-- C5 witness: a clean direct parse through the first strategy. -/
theorem c5_extraction_strategy_order_witness :
    json_loads_l (pyStrip "[\"a\"]".toList) = some (Json.arr [Json.str "a"]) ∧
    extract_json_from_response "[\"a\"]" = (some (Json.arr [Json.str "a"]), true) :=
  ⟨rfl, c5_extraction_strategy_order.1 "[\"a\"]" (Json.arr [Json.str "a"]) rfl⟩

/-- C6: when all three extraction strategies fail, extraction returns no
value, and the Kimi caller falls back to the raw response text verbatim
with the output format flipped to raw and the degradation warning emitted —
it still returns an outcome rather than terminating. -/
theorem c6_extraction_failure_falls_back_to_raw (t : String)
    (hA : json_loads_l (pyStrip t.toList) = none)
    (hF : ∀ i, fenceSearch (pyStrip t.toList) = some i → json_loads_l i = none)
    (hB : ∀ sub, braceSlice (pyStrip t.toList) = some sub → json_loads_l sub = none) :
    extract_json_from_response t = (none, false) ∧
    kimi_postprocess t false = ⟨KimiText.raw t, true, true⟩ := by
  have hbs : braceStrategy (pyStrip t.toList) = (none, false) := by
    cases hs : braceSlice (pyStrip t.toList) with
    | none => simp only [braceStrategy, hs]
    | some sub => simp only [braceStrategy, hs, hB sub hs]
  have he : extract_json_from_response t = (none, false) := by
    cases hf : fenceSearch (pyStrip t.toList) with
    | none =>
      simp only [extract_json_from_response, hA, hf]
      exact hbs
    | some i =>
      simp only [extract_json_from_response, hA, hf, hF i hf]
      exact hbs
  refine ⟨he, ?_⟩
  simp only [kimi_postprocess, he]
  rfl

/-- C6 witness: a purely narrative response with no fence and no braces. -/
theorem c6_extraction_failure_falls_back_to_raw_witness :
    extract_json_from_response "cannot parse this" = (none, false) ∧
    kimi_postprocess "cannot parse this" false =
      ⟨KimiText.raw "cannot parse this", true, true⟩ :=
  c6_extraction_failure_falls_back_to_raw "cannot parse this" rfl
    (fun i h => by
      rw [show fenceSearch (pyStrip ("cannot parse this").toList) = none from rfl] at h
      exact Option.noConfusion h)
    (fun sub h => by
      rw [show braceSlice (pyStrip ("cannot parse this").toList) = none from rfl] at h
      exact Option.noConfusion h)

/-- C9: a recovered value that is Python-falsy (for example the valid
empty object) is treated exactly like a parse failure — the Kimi caller
falls back to raw text and flips the output format — because the result is
tested by truthiness, not by comparison with None; witnessed by the empty
object. -/
theorem c9_falsy_parse_treated_as_failure :
    (∀ (t : String) (v : Json), (extract_json_from_response t).1 = some v →
      jsonTruthy v = false →
      kimi_postprocess t false = ⟨KimiText.raw t, true, true⟩) ∧
    extract_json_from_response "\x7b\x7d" = (some (Json.obj []), true) ∧
    kimi_postprocess "\x7b\x7d" false = ⟨KimiText.raw "\x7b\x7d", true, true⟩ := by
  refine ⟨?_, rfl, rfl⟩
  intro t v hv hf
  simp only [kimi_postprocess, hv, hf]
  rfl

/-- C9 witness: the empty object parses cleanly yet falls back. -/
theorem c9_falsy_parse_treated_as_failure_witness :
    (extract_json_from_response "\x7b\x7d").1 = some (Json.obj []) ∧
    jsonTruthy (Json.obj []) = false ∧
    kimi_postprocess "\x7b\x7d" false = ⟨KimiText.raw "\x7b\x7d", true, true⟩ :=
  ⟨rfl, rfl, c9_falsy_parse_treated_as_failure.1 "\x7b\x7d" (Json.obj []) rfl rfl⟩
